import Mathlib

/-!
# Verification of the iwallpapers persistence-and-distribution engine

A shallow embedding, in Lean 4, of the parts of the repository that the
specification's claims are about:

* `src/common/model.py` — the `Wallpaper` and `Subscription` data model;
* `src/common/repository.py` — the two storage backends
  (`SqliteRepository`, the embedded single-file store, and
  `PostgresRepository`, the networked store): upsert, lookup by id, and
  constrained random sampling;
* `src/bot/telegram_bot.py` — the per-destination send path
  `TelegramBot._send_wallpaper_to_chat` with its single-flight guard,
  retry loop and scope-guaranteed release.

Modelling conventions:

* Python `str` values that the code only passes around are Lean `String`s;
  text cells that the code builds and re-parses (the comma-joined
  `tags`/`colors` cells of the embedded backend) are `List Char`, with
  join/split defined by recursion, mirroring `",".join` and
  `str.split(",")`.
* `extra_info : dict` is modelled by the JSON value type `JValue`.
  Both backends store `json.dumps(extra_info)` and the read path parses it
  back (`json.loads` on the embedded backend, the driver's JSONB decoding
  on the networked one).  On the values representable by `JValue` this
  encode/decode pair is the identity, and `json.dumps` never returns the
  empty string, so the embedded backend's falsiness guard
  (`json.loads(row[16]) if row[16] else {}`) always takes the parse
  branch; the cell is therefore modelled as the abstract `JValue`.
* Timestamps are abstract `Int` instants (no arithmetic is done on them).
* `ORDER BY RANDOM()` is modelled by a caller-supplied reordering function
  `shuffle : List Row → List Row`; theorems assume `(shuffle l).Perm l`.
* SQL `LIMIT n`: SQLite documents a negative limit as "no upper bound on
  the number of rows returned"; PostgreSQL rejects a negative limit with
  an error (which the repository's `except` converts to `[]`).
* Storage-layer failures (driver errors, `json.dumps` serialization
  errors) are injected by an explicit `StorageFailure` oracle, so that the
  `try/except` structure of each method is represented faithfully:
  `except sqlite3.Error` catches only driver errors, `except Exception`
  catches both kinds.
-/

namespace IWallpapers

/-- JSON values, the model of Python `dict` payloads in `extra_info`
(`json.dumps`/`json.loads` round-trip these faithfully). -/
inductive JValue where
  | null : JValue
  | bool (b : Bool) : JValue
  | num (n : Int) : JValue
  | str (s : String) : JValue
  | arr (elems : List JValue) : JValue
  | obj (fields : List (String × JValue)) : JValue

/-- The wallpaper record of `src/common/model.py` (`@dataclass Wallpaper`).
`file_id` is the nullable delivery handle; `created_at` an abstract
timestamp; `ratio` a rational stand-in for the Python float (never
computed with). -/
structure Wallpaper where
  id : String
  src : String
  source : String
  source_src : String
  description : String
  author : String
  author_url : String
  tags : List String
  colors : List String
  category : String
  width : Int
  height : Int
  ratio : Rat
  size : Int
  sfw : Bool
  type : String
  extra_info : JValue
  created_at : Int
  file_id : Option String

/-! ## The embedded backend's comma-joined text cells

`SqliteRepository.insert_wallpaper` stores `",".join(wallpaper.tags)`;
`_row_to_wallpaper` reads it back as `row[7].split(",") if row[7] else []`.
`joinComma`/`splitComma` are those two Python operations on `List Char`. -/

/-- Python `",".join(xs)`: concatenation with a single `','` between
consecutive elements. -/
def joinComma : List (List Char) → List Char
  | [] => []
  | [x] => x
  | x :: y :: rest => x ++ ',' :: joinComma (y :: rest)

/-- Worker for `splitComma`; `acc` holds the current chunk reversed. -/
def splitCommaAux : List Char → List Char → List (List Char)
  | [], acc => [acc.reverse]
  | c :: cs, acc =>
    if c = ',' then acc.reverse :: splitCommaAux cs []
    else splitCommaAux cs (c :: acc)

/-- Python `s.split(",")` (with explicit separator: `"".split(",") == [""]`,
`",".split(",") == ["", ""]`). -/
def splitComma (s : List Char) : List (List Char) :=
  splitCommaAux s []

/-- Encoding of a `list[str]` field into the embedded backend's TEXT cell:
`",".join(xs)`. -/
def encodeListCell (xs : List String) : List Char :=
  joinComma (xs.map String.data)

/-- Decoding of the embedded backend's TEXT cell:
`cell.split(",") if cell else []` (the empty string is falsy). -/
def decodeListCell (cell : List Char) : List String :=
  if cell.isEmpty then [] else (splitComma cell).map String.mk

/-! ## The embedded backend (`SqliteRepository`)

The `wallpapers` table: `id` is `TEXT PRIMARY KEY`; `tags`/`colors` are
comma-joined TEXT cells; `extra_info` is a `json.dumps` TEXT cell
(modelled as the abstract `JValue`, see the header); `sfw` is stored as a
`BOOLEAN` (SQLite integer 0/1) and read back through `bool(row[14])`,
which is the identity on booleans.  The table is modelled as a list of
rows; the `PRIMARY KEY` invariant is maintained by
`sqliteInsertWallpaper` itself (`INSERT OR REPLACE`). -/

structure SqliteWallpaperRow where
  id : String
  src : String
  source : String
  source_src : String
  description : String
  author : String
  author_url : String
  tags : List Char
  colors : List Char
  category : String
  width : Int
  height : Int
  ratio : Rat
  size : Int
  sfw : Bool
  type : String
  extra_info : JValue
  file_id : Option String
  created_at : Int

/-- The parameter tuple bound by `SqliteRepository.insert_wallpaper`
(lines 244-264): scalar fields verbatim, `",".join(tags)`,
`",".join(colors)`, `json.dumps(extra_info)`. -/
def sqliteWallpaperToRow (w : Wallpaper) : SqliteWallpaperRow :=
  { id := w.id
    src := w.src
    source := w.source
    source_src := w.source_src
    description := w.description
    author := w.author
    author_url := w.author_url
    tags := encodeListCell w.tags
    colors := encodeListCell w.colors
    category := w.category
    width := w.width
    height := w.height
    ratio := w.ratio
    size := w.size
    sfw := w.sfw
    type := w.type
    extra_info := w.extra_info
    file_id := w.file_id
    created_at := w.created_at }

/-- `SqliteRepository._row_to_wallpaper` (also inlined in
`get_wallpaper_by_id`): `row[7].split(",") if row[7] else []` for tags and
colors, `bool(row[14])` for sfw, `json.loads(row[16]) if row[16] else {}`
for extra_info. -/
def sqliteRowToWallpaper (r : SqliteWallpaperRow) : Wallpaper :=
  { id := r.id
    src := r.src
    source := r.source
    source_src := r.source_src
    description := r.description
    author := r.author
    author_url := r.author_url
    tags := decodeListCell r.tags
    colors := decodeListCell r.colors
    category := r.category
    width := r.width
    height := r.height
    ratio := r.ratio
    size := r.size
    sfw := r.sfw
    type := r.type
    extra_info := r.extra_info
    file_id := r.file_id
    created_at := r.created_at }

/-- `INSERT OR REPLACE INTO wallpapers ...` keyed on the `id` primary key:
any existing row with the same id is replaced by the new row
(`SqliteRepository.insert_wallpaper`, success path). -/
def sqliteInsertWallpaper (db : List SqliteWallpaperRow) (w : Wallpaper) :
    List SqliteWallpaperRow :=
  db.filter (fun r => r.id ≠ w.id) ++ [sqliteWallpaperToRow w]

/-- `SELECT * FROM wallpapers WHERE id = ?` + `fetchone()` + row
conversion (`SqliteRepository.get_wallpaper_by_id`, success path). -/
def sqliteGetWallpaperById (db : List SqliteWallpaperRow) (wallpaper_id : String) :
    Option Wallpaper :=
  (db.find? (fun r => r.id = wallpaper_id)).map sqliteRowToWallpaper

/-- The WHERE conjunction built by
`SqliteRepository._get_random_wallpapers` (lines 414-432): base condition
`file_id IS NULL` when `unpublishsed_first` else `1 = 1`, then
`size <= ?` only when `max_size > 0`, `width <= ?` only when
`max_width > 0`, `height <= ?` only when `max_height > 0`, `sfw = ?` only
when `sfw is not None`. -/
def sqliteRowMatches (max_size max_width max_height : Int) (sfw : Option Bool)
    (unpublishsed_first : Bool) (r : SqliteWallpaperRow) : Bool :=
  (if unpublishsed_first then r.file_id.isNone else true) &&
  (if max_size > 0 then r.size ≤ max_size else true) &&
  (if max_width > 0 then r.width ≤ max_width else true) &&
  (if max_height > 0 then r.height ≤ max_height else true) &&
  (match sfw with
   | some b => r.sfw = b
   | none => true)

/-- SQLite `LIMIT ?` with the bound parameter `max_count`: a negative
limit means "no upper bound on the number of rows returned" (SQLite
language reference), otherwise at most `max_count` rows. -/
def sqliteLimit {α : Type} (max_count : Int) (l : List α) : List α :=
  if max_count < 0 then l else l.take max_count.toNat

/-- One query of `SqliteRepository._get_random_wallpapers` (success
path): filter by the WHERE conjunction, `ORDER BY RANDOM()` (the
`shuffle` oracle), `LIMIT max_count`, convert each row. -/
def sqliteGetRandomPhase (db : List SqliteWallpaperRow)
    (max_count max_size max_width max_height : Int) (sfw : Option Bool)
    (unpublishsed_first : Bool)
    (shuffle : List SqliteWallpaperRow → List SqliteWallpaperRow) :
    List Wallpaper :=
  (sqliteLimit max_count
      (shuffle (db.filter
        (sqliteRowMatches max_size max_width max_height sfw unpublishsed_first)))).map
    sqliteRowToWallpaper

/-- `SqliteRepository.get_random_wallpapers`: first query with
`unpublishsed_first=True`; if that returns no rows (`if not wallpapers`),
query again with `unpublishsed_first=False`.  Each query draws its own
random order (`shuffle1`, `shuffle2`). -/
def sqliteGetRandomWallpapers (db : List SqliteWallpaperRow)
    (max_count max_size max_width max_height : Int) (sfw : Option Bool)
    (shuffle1 shuffle2 : List SqliteWallpaperRow → List SqliteWallpaperRow) :
    List Wallpaper :=
  let wallpapers :=
    sqliteGetRandomPhase db max_count max_size max_width max_height sfw true shuffle1
  if wallpapers.isEmpty then
    sqliteGetRandomPhase db max_count max_size max_width max_height sfw false shuffle2
  else wallpapers

/-! ## The networked backend (`PostgresRepository`)

`tags`/`colors` are native `TEXT[]` arrays, `extra_info` is `JSONB`
(modelled as the abstract `JValue`, encoded by `json.dumps` on write and
decoded by the driver on read). -/

structure PgWallpaperRow where
  id : String
  src : String
  source : String
  source_src : String
  description : String
  author : String
  author_url : String
  tags : List String
  colors : List String
  category : String
  width : Int
  height : Int
  ratio : Rat
  size : Int
  sfw : Bool
  type : String
  extra_info : JValue
  file_id : Option String
  created_at : Int

/-- The row written by a conflict-free
`PostgresRepository.insert_wallpaper`: every column, `created_at`
included, comes from the caller's record. -/
def pgWallpaperToRow (w : Wallpaper) : PgWallpaperRow :=
  { id := w.id
    src := w.src
    source := w.source
    source_src := w.source_src
    description := w.description
    author := w.author
    author_url := w.author_url
    tags := w.tags
    colors := w.colors
    category := w.category
    width := w.width
    height := w.height
    ratio := w.ratio
    size := w.size
    sfw := w.sfw
    type := w.type
    extra_info := w.extra_info
    file_id := w.file_id
    created_at := w.created_at }

/-- `PostgresRepository._row_to_wallpaper`: `row["tags"] or []`,
`row["colors"] or []`, all other columns verbatim. -/
def pgRowToWallpaper (r : PgWallpaperRow) : Wallpaper :=
  { id := r.id
    src := r.src
    source := r.source
    source_src := r.source_src
    description := r.description
    author := r.author
    author_url := r.author_url
    tags := if r.tags.isEmpty then [] else r.tags
    colors := if r.colors.isEmpty then [] else r.colors
    category := r.category
    width := r.width
    height := r.height
    ratio := r.ratio
    size := r.size
    sfw := r.sfw
    type := r.type
    extra_info := r.extra_info
    file_id := r.file_id
    created_at := r.created_at }

/-- `PostgresRepository.insert_wallpaper` (success path):
`INSERT ... ON CONFLICT (id) DO UPDATE SET file_id = EXCLUDED.file_id,
created_at = CURRENT_TIMESTAMP`.  When a row with the same id exists,
only its `file_id` is overwritten with the caller's value and its
`created_at` refreshed to the server clock `now`; every other column
keeps its previous value.  Otherwise a fresh row is inserted. -/
def pgInsertWallpaper (db : List PgWallpaperRow) (w : Wallpaper) (now : Int) :
    List PgWallpaperRow :=
  if db.any (fun r => r.id = w.id) then
    db.map (fun r =>
      if r.id = w.id then { r with file_id := w.file_id, created_at := now } else r)
  else db ++ [pgWallpaperToRow w]

/-- `SELECT * FROM wallpapers WHERE id = %s` + `fetchone()` + row
conversion (`PostgresRepository.get_wallpaper_by_id`, success path). -/
def pgGetWallpaperById (db : List PgWallpaperRow) (wallpaper_id : String) :
    Option Wallpaper :=
  (db.find? (fun r => r.id = wallpaper_id)).map pgRowToWallpaper

/-- The WHERE conjunction of `PostgresRepository.get_random_wallpapers`
(lines 716-735): the same four optional filters as the embedded backend,
`TRUE` when all are absent — and no `file_id IS NULL` phase. -/
def pgRowMatches (max_size max_width max_height : Int) (sfw : Option Bool)
    (r : PgWallpaperRow) : Bool :=
  (if max_size > 0 then r.size ≤ max_size else true) &&
  (if max_width > 0 then r.width ≤ max_width else true) &&
  (if max_height > 0 then r.height ≤ max_height else true) &&
  (match sfw with
   | some b => r.sfw = b
   | none => true)

/-- `PostgresRepository.get_random_wallpapers`: one query — filter,
`ORDER BY RANDOM()` (the `shuffle` oracle), `LIMIT max_count`.
PostgreSQL rejects a negative `LIMIT` with an error
("LIMIT must not be negative"), which the method's `except Exception`
converts to `[]`. -/
def pgGetRandomWallpapers (db : List PgWallpaperRow)
    (max_count max_size max_width max_height : Int) (sfw : Option Bool)
    (shuffle : List PgWallpaperRow → List PgWallpaperRow) : List Wallpaper :=
  if max_count < 0 then []
  else
    ((shuffle (db.filter (pgRowMatches max_size max_width max_height sfw))).take
        max_count.toNat).map
      pgRowToWallpaper

/-! ## Storage failures and the `try/except` boundary

The failure oracle names which error, if any, the environment raises
while a repository method runs: `driver` is an error raised by the
database driver (`sqlite3.Error` resp. a psycopg2 error),
`serialize` is an error raised while serializing a field of the record
(`json.dumps` raises `TypeError` on a non-JSON-serializable
`extra_info`).  `Except Unit` is the method's outcome as the caller sees
it: `.error ()` means an exception propagates out of the method. -/

inductive StorageFailure where
  | driver : StorageFailure
  | serialize : StorageFailure

/-- `SqliteRepository.insert_wallpaper` with its exception boundary: the
body runs under `try ... except sqlite3.Error`, so a driver error is
caught (logged, `return False`) but a serialization error from
`json.dumps(wallpaper.extra_info)` — a `TypeError`, not a
`sqlite3.Error` — propagates to the caller. -/
def sqliteInsertWallpaperRun (db : List SqliteWallpaperRow) (w : Wallpaper)
    (fail : Option StorageFailure) : Except Unit (List SqliteWallpaperRow × Bool) :=
  match fail with
  | none => .ok (sqliteInsertWallpaper db w, true)
  | some .driver => .ok (db, false)
  | some .serialize => .error ()

/-- `PostgresRepository.insert_wallpaper` with its exception boundary:
the body runs under `try ... except Exception`, so both driver and
serialization errors are caught (logged, `return False`). -/
def pgInsertWallpaperRun (db : List PgWallpaperRow) (w : Wallpaper) (now : Int)
    (fail : Option StorageFailure) : Except Unit (List PgWallpaperRow × Bool) :=
  match fail with
  | none => .ok (pgInsertWallpaper db w now, true)
  | some _ => .ok (db, false)

/-- `SqliteRepository._get_random_wallpapers` with its exception
boundary: the query runs under `try ... except sqlite3.Error`, returning
`[]` on a driver error; no field serialization happens on the read path
(row conversion errors are caught inside `_row_to_wallpaper` itself). -/
def sqliteGetRandomPhaseRun (db : List SqliteWallpaperRow)
    (max_count max_size max_width max_height : Int) (sfw : Option Bool)
    (unpublishsed_first : Bool)
    (shuffle : List SqliteWallpaperRow → List SqliteWallpaperRow)
    (driverFails : Bool) : List Wallpaper :=
  if driverFails then []
  else sqliteGetRandomPhase db max_count max_size max_width max_height sfw
    unpublishsed_first shuffle

/-! ## Subscriptions (`update_subscription` / `deactivate_subscription`)

`SqliteRepository.update_subscription` and
`PostgresRepository.update_subscription` share the same logic:
an empty field map returns `True` without touching the store; otherwise
`UPDATE subscriptions SET <fields> WHERE chat_id = ?` runs and the method
returns `cursor.rowcount > 0` — and in both engines an `UPDATE` counts
every matched row, so the result is `True` exactly when a row with that
`chat_id` exists.  One definition embeds both backends. -/

structure SubscriptionRow where
  chat_id : Int
  chat_type : String
  title : String
  username : Option String
  is_admin : Bool
  created_at : Int
  updated_at : Int
  active : Bool
  extra_info : JValue

/-- One `key: value` entry of the `updates` dict, for the subscription
columns the codebase updates. -/
inductive SubFieldUpdate where
  | setActive (b : Bool) : SubFieldUpdate
  | setUpdatedAt (t : Int) : SubFieldUpdate
  | setTitle (s : String) : SubFieldUpdate
  | setUsername (s : Option String) : SubFieldUpdate
  | setIsAdmin (b : Bool) : SubFieldUpdate

def applySubFieldUpdate (r : SubscriptionRow) : SubFieldUpdate → SubscriptionRow
  | .setActive b => { r with active := b }
  | .setUpdatedAt t => { r with updated_at := t }
  | .setTitle s => { r with title := s }
  | .setUsername s => { r with username := s }
  | .setIsAdmin b => { r with is_admin := b }

/-- `update_subscription(chat_id, updates)` (both backends, success
path): `if not updates: return True`; else update the matched row's
fields and return `rowcount > 0`. -/
def updateSubscription (db : List SubscriptionRow) (chat_id : Int)
    (updates : List SubFieldUpdate) : List SubscriptionRow × Bool :=
  if updates.isEmpty then (db, true)
  else
    (db.map (fun r =>
        if r.chat_id = chat_id then updates.foldl applySubFieldUpdate r else r),
      db.any (fun r => r.chat_id = chat_id))

/-- `deactivate_subscription(chat_id)` (both backends):
`update_subscription(chat_id, {"active": False, "updated_at": now})`. -/
def deactivateSubscription (db : List SubscriptionRow) (chat_id : Int) (now : Int) :
    List SubscriptionRow × Bool :=
  updateSubscription db chat_id [.setActive false, .setUpdatedAt now]

/-! ## The bot send path (`TelegramBot._send_wallpaper_to_chat`)

The bot holds `self._running_jobs : Set[int]` (the single-flight sending
set) and the repository (the bot binary constructs a
`SqliteRepository`).  The guard test and the `add` run back to back with
no `await` between them, so under asyncio's single-threaded scheduling
they form one atomic step; the model performs them together.

The environment oracle `SendEnv` supplies everything the outside world
decides during one call: the two random orders of the sampling query, the
outcome of each successive `bot.send_photo` call, and whether an
unexpected exception is raised inside the body outside the per-attempt
`try` (e.g. while formatting the caption).  Observable interactions are
recorded as `SendEvent`s. -/

/-- Outcome of one `bot.send_photo` call: success (carrying the
`message.photo[-1].file_id` when the message reports photo sizes, `none`
when `message.photo` is empty) or a raised exception. -/
inductive AttemptOutcome where
  | ok (photoFileId : Option String) : AttemptOutcome
  | raise : AttemptOutcome

/-- Observable interactions of one `_send_wallpaper_to_chat` call:
the sampling query to the repository, a `send_photo` call to the delivery
client (`byFileId` — whether the cached handle was used; `hasSpoiler` —
the sensitive-content flag passed), and a wallpaper write-back. -/
inductive SendEvent where
  | sample : SendEvent
  | clientSend (chat_id : Int) (byFileId : Bool) (hasSpoiler : Bool) : SendEvent
  | storeInsert : SendEvent

structure SendEnv where
  shuffle1 : List SqliteWallpaperRow → List SqliteWallpaperRow
  shuffle2 : List SqliteWallpaperRow → List SqliteWallpaperRow
  attempts : List AttemptOutcome
  unexpectedRaise : Bool

structure BotState where
  runningJobs : Finset Int
  db : List SqliteWallpaperRow

/-- The `for attempt in range(retry)` loop (lines 229-261): each attempt
sends by cached `file_id` when present (else by `src`), with
`has_spoiler=not wallpaper.sfw`; on a successful URL send whose message
carries photo sizes, the returned handle is written back via
`insert_wallpaper` (best effort); an attempt's exception is caught, and
on the last attempt (`attempt == retry - 1`) the call returns `False`.
Returns the repository state, the result, and the emitted events.
(With a zero retry budget, the Python loop body never runs and the
function falls through, returning a falsy `None`.) -/
def attemptLoop (db : List SqliteWallpaperRow) (chat_id : Int) (w : Wallpaper) :
    Nat → List AttemptOutcome → List SqliteWallpaperRow × Bool × List SendEvent
  | 0, _ => (db, false, [])
  | Nat.succ remaining, outcomes =>
    let outcome := outcomes.headD AttemptOutcome.raise
    match w.file_id with
    | some _ =>
      match outcome with
      | .ok _ => (db, true, [.clientSend chat_id true (!w.sfw)])
      | .raise =>
        if remaining = 0 then (db, false, [.clientSend chat_id true (!w.sfw)])
        else
          let (db', res, evs) := attemptLoop db chat_id w remaining outcomes.tail
          (db', res, .clientSend chat_id true (!w.sfw) :: evs)
    | none =>
      match outcome with
      | .ok (some fid) =>
        (sqliteInsertWallpaper db { w with file_id := some fid }, true,
          [.clientSend chat_id false (!w.sfw), .storeInsert])
      | .ok none => (db, true, [.clientSend chat_id false (!w.sfw)])
      | .raise =>
        if remaining = 0 then (db, false, [.clientSend chat_id false (!w.sfw)])
        else
          let (db', res, evs) := attemptLoop db chat_id w remaining outcomes.tail
          (db', res, .clientSend chat_id false (!w.sfw) :: evs)

/-- The wallpaper a `_send_wallpaper_to_chat` call selects
(`wallpapers[0]` of the sampling query, with the call-site arguments
`max_count=1, max_size=5*1024*1024, max_width=10000, max_height=10000`),
or `none` when the sample is empty. -/
def selectedWallpaper (st : BotState) (sfw : Option Bool) (env : SendEnv) :
    Option Wallpaper :=
  (sqliteGetRandomWallpapers st.db 1 (5 * 1024 * 1024) 10000 10000 sfw
      env.shuffle1 env.shuffle2).head?

/-- `TelegramBot._send_wallpaper_to_chat(chat_id, sfw, retry)`
(lines 195-267): skip (`return False`, nothing else happens) when
`chat_id` is already in `_running_jobs`; otherwise add `chat_id` to the
set and run the body under `try ... except Exception: return False`
with `finally: self._running_jobs.remove(chat_id)`.  The body samples one
wallpaper (returning `False` when none is found) and runs the retry
loop.  Returns the result, the emitted events, and the new state. -/
def sendWallpaperToChat (st : BotState) (chat_id : Int) (sfw : Option Bool)
    (retry : Nat) (env : SendEnv) : Bool × List SendEvent × BotState :=
  if chat_id ∈ st.runningJobs then (false, [], st)
  else
    let running := insert chat_id st.runningJobs
    let wallpapers :=
      sqliteGetRandomWallpapers st.db 1 (5 * 1024 * 1024) 10000 10000 sfw
        env.shuffle1 env.shuffle2
    match wallpapers with
    | [] => (false, [.sample], ⟨running.erase chat_id, st.db⟩)
    | w :: _ =>
      if env.unexpectedRaise then (false, [.sample], ⟨running.erase chat_id, st.db⟩)
      else
        let (db', res, evs) := attemptLoop st.db chat_id w retry env.attempts
        (res, .sample :: evs, ⟨running.erase chat_id, db'⟩)

/-! ## Helper lemmas: the comma codec -/

theorem splitCommaAux_no_comma (x : List Char) (acc : List Char) (h : ',' ∉ x) :
    splitCommaAux x acc = [acc.reverse ++ x] := by
  induction x generalizing acc with
  | nil => simp [splitCommaAux]
  | cons c cs ih =>
    have hc : ¬ c = ',' := fun hc => h (hc ▸ List.mem_cons_self c cs)
    have hcs : ',' ∉ cs := fun hm => h (List.mem_cons_of_mem c hm)
    simp [splitCommaAux, hc, ih (c :: acc) hcs]

theorem splitCommaAux_chunk (x rest acc : List Char) (h : ',' ∉ x) :
    splitCommaAux (x ++ ',' :: rest) acc = (acc.reverse ++ x) :: splitCommaAux rest [] := by
  induction x generalizing acc with
  | nil => simp [splitCommaAux]
  | cons c cs ih =>
    have hc : ¬ c = ',' := fun hc => h (hc ▸ List.mem_cons_self c cs)
    have hcs : ',' ∉ cs := fun hm => h (List.mem_cons_of_mem c hm)
    simp [splitCommaAux, hc, ih (c :: acc) hcs]

/-- Splitting undoes joining for a nonempty list of comma-free chunks
(Python: `",".join(xs).split(",") == xs`). -/
theorem splitComma_joinComma (xs : List (List Char)) (h : ∀ x ∈ xs, ',' ∉ x)
    (hne : xs ≠ []) : splitComma (joinComma xs) = xs := by
  induction xs with
  | nil => exact absurd rfl hne
  | cons x ys ih =>
    cases ys with
    | nil =>
      simpa [splitComma, joinComma] using
        splitCommaAux_no_comma x [] (h x (List.mem_cons_self x []))
    | cons y zs =>
      have hx : ',' ∉ x := h x (List.mem_cons_self x _)
      have hys : ∀ z ∈ y :: zs, ',' ∉ z := fun z hz => h z (List.mem_cons_of_mem x hz)
      have := ih hys (by simp)
      simp only [joinComma, splitComma] at this ⊢
      rw [splitCommaAux_chunk x (joinComma (y :: zs)) [] hx, this]
      simp

theorem joinComma_ne_nil (xs : List (List Char)) (hne : xs ≠ []) (hsingle : xs ≠ [[]]) :
    joinComma xs ≠ [] := by
  match xs with
  | [] => exact absurd rfl hne
  | [x] =>
    have : x ≠ [] := fun hx => hsingle (by simp [hx])
    simpa [joinComma] using this
  | x :: y :: rest =>
    cases x with
    | nil => simp [joinComma]
    | cons c cs => simp [joinComma]

/-- The embedded backend's list round-trip: writing then reading a
`list[str]` field is the identity provided no element contains the comma
delimiter and the list is not the singleton empty string. -/
theorem decodeListCell_encodeListCell (xs : List String)
    (h : ∀ s ∈ xs, ',' ∉ s.data) (hne : xs ≠ [""]) :
    decodeListCell (encodeListCell xs) = xs := by
  cases xs with
  | nil => simp [decodeListCell, encodeListCell, joinComma]
  | cons s rest =>
    have hmapne : (s :: rest).map String.data ≠ [] := by simp
    have hmapsingle : (s :: rest).map String.data ≠ [[]] := by
      intro hcontra
      apply hne
      cases rest with
      | nil =>
        have : s.data = [] := by simpa using hcontra
        have hs : s = "" := by
          cases s with
          | mk d =>
            have hd : d = [] := by simpa using this
            rw [hd]
        simp [hs]
      | cons _ _ => simp at hcontra
    have hjoin : joinComma ((s :: rest).map String.data) ≠ [] :=
      joinComma_ne_nil _ hmapne hmapsingle
    have hcf : ∀ x ∈ (s :: rest).map String.data, ',' ∉ x := by
      intro x hx
      rcases List.mem_map.mp hx with ⟨t, ht, rfl⟩
      exact h t ht
    unfold decodeListCell encodeListCell
    rw [if_neg (by simpa [List.isEmpty_iff] using hjoin)]
    rw [splitComma_joinComma _ hcf hmapne]
    rw [List.map_map]
    have : (String.mk ∘ String.data) = id := by
      funext t
      cases t
      rfl
    simp [this]

/-! ## Helper lemmas: random sampling -/

theorem mem_sqliteLimit {α : Type} {max_count : Int} {l : List α} {a : α}
    (h : a ∈ sqliteLimit max_count l) : a ∈ l := by
  unfold sqliteLimit at h
  split at h
  · exact h
  · exact List.take_subset _ _ h

theorem length_sqliteLimit_le {α : Type} {max_count : Int} (hmc : 0 ≤ max_count)
    (l : List α) : ((sqliteLimit max_count l).length : Int) ≤ max_count := by
  unfold sqliteLimit
  rw [if_neg (by omega)]
  calc ((l.take max_count.toNat).length : Int)
      ≤ (max_count.toNat : Int) := by
        exact_mod_cast List.length_take_le _ _
    _ = max_count := Int.toNat_of_nonneg hmc

/-- Every wallpaper returned by one sampling query of the embedded
backend comes from a stored row satisfying the query's WHERE clause. -/
theorem mem_sqliteGetRandomPhase {db : List SqliteWallpaperRow}
    {max_count max_size max_width max_height : Int} {sfw : Option Bool}
    {unpublishsed_first : Bool}
    {shuffle : List SqliteWallpaperRow → List SqliteWallpaperRow}
    (hsh : ∀ l, (shuffle l).Perm l) {w : Wallpaper}
    (hw : w ∈ sqliteGetRandomPhase db max_count max_size max_width max_height sfw
      unpublishsed_first shuffle) :
    ∃ r ∈ db,
      sqliteRowMatches max_size max_width max_height sfw unpublishsed_first r = true ∧
      w = sqliteRowToWallpaper r := by
  unfold sqliteGetRandomPhase at hw
  rcases List.mem_map.mp hw with ⟨r, hr, rfl⟩
  have hr' := (hsh _).mem_iff.mp (mem_sqliteLimit hr)
  rcases List.mem_filter.mp hr' with ⟨hrdb, hrmatch⟩
  exact ⟨r, hrdb, hrmatch, rfl⟩

/-- The `file_id IS NULL` base condition strengthens the plain WHERE
clause: a row matching the first query matches the fallback query. -/
theorem sqliteRowMatches_weaken {max_size max_width max_height : Int}
    {sfw : Option Bool} {r : SqliteWallpaperRow}
    (h : sqliteRowMatches max_size max_width max_height sfw true r = true) :
    sqliteRowMatches max_size max_width max_height sfw false r = true := by
  unfold sqliteRowMatches at h ⊢
  simp only [Bool.and_eq_true] at h ⊢
  exact ⟨⟨⟨⟨rfl, h.1.1.1.2⟩, h.1.1.2⟩, h.1.2⟩, h.2⟩

/-- Every wallpaper returned by the embedded backend's
`get_random_wallpapers` comes from a stored row satisfying the filter
conjunction (without the `file_id IS NULL` phase condition). -/
theorem mem_sqliteGetRandomWallpapers {db : List SqliteWallpaperRow}
    {max_count max_size max_width max_height : Int} {sfw : Option Bool}
    {shuffle1 shuffle2 : List SqliteWallpaperRow → List SqliteWallpaperRow}
    (h1 : ∀ l, (shuffle1 l).Perm l) (h2 : ∀ l, (shuffle2 l).Perm l) {w : Wallpaper}
    (hw : w ∈ sqliteGetRandomWallpapers db max_count max_size max_width max_height sfw
      shuffle1 shuffle2) :
    ∃ r ∈ db,
      sqliteRowMatches max_size max_width max_height sfw false r = true ∧
      w = sqliteRowToWallpaper r := by
  simp only [sqliteGetRandomWallpapers] at hw
  split at hw
  · exact mem_sqliteGetRandomPhase h2 hw
  · rcases mem_sqliteGetRandomPhase h1 hw with ⟨r, hrdb, hrmatch, rfl⟩
    exact ⟨r, hrdb, sqliteRowMatches_weaken hrmatch, rfl⟩

/-- Every wallpaper returned by the networked backend's
`get_random_wallpapers` comes from a stored row satisfying the filter
conjunction. -/
theorem mem_pgGetRandomWallpapers {db : List PgWallpaperRow}
    {max_count max_size max_width max_height : Int} {sfw : Option Bool}
    {shuffle : List PgWallpaperRow → List PgWallpaperRow}
    (hsh : ∀ l, (shuffle l).Perm l) {w : Wallpaper}
    (hw : w ∈ pgGetRandomWallpapers db max_count max_size max_width max_height sfw
      shuffle) :
    ∃ r ∈ db,
      pgRowMatches max_size max_width max_height sfw r = true ∧
      w = pgRowToWallpaper r := by
  unfold pgGetRandomWallpapers at hw
  split at hw
  · simp at hw
  · rcases List.mem_map.mp hw with ⟨r, hr, rfl⟩
    have hr' := (hsh _).mem_iff.mp (List.take_subset _ _ hr)
    rcases List.mem_filter.mp hr' with ⟨hrdb, hrmatch⟩
    exact ⟨r, hrdb, hrmatch, rfl⟩

/-- Unpacking the embedded backend's WHERE conjunction into the four
filter guarantees. -/
theorem sqliteRowMatches_bounds {max_size max_width max_height : Int}
    {sfw : Option Bool} {unpublishsed_first : Bool} {r : SqliteWallpaperRow}
    (h : sqliteRowMatches max_size max_width max_height sfw unpublishsed_first r
      = true) :
    (0 < max_size → r.size ≤ max_size) ∧ (0 < max_width → r.width ≤ max_width) ∧
    (0 < max_height → r.height ≤ max_height) ∧ ∀ b, sfw = some b → r.sfw = b := by
  unfold sqliteRowMatches at h
  simp only [Bool.and_eq_true] at h
  refine ⟨fun hms => ?_, fun hmw => ?_, fun hmh => ?_, fun b hb => ?_⟩
  · have := h.1.1.1.2
    rw [if_pos (by omega : max_size > 0)] at this
    exact_mod_cast of_decide_eq_true this
  · have := h.1.1.2
    rw [if_pos (by omega : max_width > 0)] at this
    exact_mod_cast of_decide_eq_true this
  · have := h.1.2
    rw [if_pos (by omega : max_height > 0)] at this
    exact_mod_cast of_decide_eq_true this
  · have := h.2
    rw [hb] at this
    exact of_decide_eq_true this

/-- Unpacking the networked backend's WHERE conjunction. -/
theorem pgRowMatches_bounds {max_size max_width max_height : Int}
    {sfw : Option Bool} {r : PgWallpaperRow}
    (h : pgRowMatches max_size max_width max_height sfw r = true) :
    (0 < max_size → r.size ≤ max_size) ∧ (0 < max_width → r.width ≤ max_width) ∧
    (0 < max_height → r.height ≤ max_height) ∧ ∀ b, sfw = some b → r.sfw = b := by
  unfold pgRowMatches at h
  simp only [Bool.and_eq_true] at h
  refine ⟨fun hms => ?_, fun hmw => ?_, fun hmh => ?_, fun b hb => ?_⟩
  · have := h.1.1.1
    rw [if_pos (by omega : max_size > 0)] at this
    exact_mod_cast of_decide_eq_true this
  · have := h.1.1.2
    rw [if_pos (by omega : max_width > 0)] at this
    exact_mod_cast of_decide_eq_true this
  · have := h.1.2
    rw [if_pos (by omega : max_height > 0)] at this
    exact_mod_cast of_decide_eq_true this
  · have := h.2
    rw [hb] at this
    exact of_decide_eq_true this

/-! ## Helper lemmas: the bot send path -/

/-- Shape of the retry loop's event trace: every event is either the
wallpaper write-back or a `send_photo` to the given destination carrying
`has_spoiler = not wallpaper.sfw`. -/
theorem attemptLoop_events (db : List SqliteWallpaperRow) (chat_id : Int)
    (w : Wallpaper) :
    ∀ (n : Nat) (outcomes : List AttemptOutcome),
      ∀ e ∈ (attemptLoop db chat_id w n outcomes).2.2,
        e = SendEvent.storeInsert ∨
          ∃ bf : Bool, e = SendEvent.clientSend chat_id bf (!w.sfw) := by
  intro n
  induction n with
  | zero =>
    intro outcomes e he
    simp [attemptLoop] at he
  | succ m ih =>
    intro outcomes e he
    unfold attemptLoop at he
    rcases hfid : w.file_id with _ | fid <;>
      rcases houtcome : outcomes.headD AttemptOutcome.raise with pid | _ <;>
        rw [hfid, houtcome] at he
    · rcases pid with _ | f <;> dsimp only at he
      · simp only [List.mem_singleton] at he
        exact Or.inr ⟨false, he⟩
      · rcases List.mem_cons.mp he with rfl | he2
        · exact Or.inr ⟨false, rfl⟩
        · simp only [List.mem_singleton] at he2
          exact Or.inl he2
    · dsimp only at he
      by_cases hm : m = 0
      · subst hm
        rw [if_pos rfl] at he
        simp only [List.mem_singleton] at he
        exact Or.inr ⟨false, he⟩
      · rw [if_neg hm] at he
        rcases List.mem_cons.mp he with rfl | he2
        · exact Or.inr ⟨false, rfl⟩
        · exact ih outcomes.tail e he2
    · dsimp only at he
      simp only [List.mem_singleton] at he
      exact Or.inr ⟨true, he⟩
    · dsimp only at he
      by_cases hm : m = 0
      · subst hm
        rw [if_pos rfl] at he
        simp only [List.mem_singleton] at he
        exact Or.inr ⟨true, he⟩
      · rw [if_neg hm] at he
        rcases List.mem_cons.mp he with rfl | he2
        · exact Or.inr ⟨true, rfl⟩
        · exact ih outcomes.tail e he2

/-- Every `send_photo` call made by the retry loop passes
`has_spoiler = not wallpaper.sfw` for the wallpaper it is delivering. -/
theorem attemptLoop_spoiler (db : List SqliteWallpaperRow) (chat_id : Int)
    (w : Wallpaper) (n : Nat) (outcomes : List AttemptOutcome) {c : Int}
    {b sp : Bool}
    (h : SendEvent.clientSend c b sp ∈ (attemptLoop db chat_id w n outcomes).2.2) :
    sp = !w.sfw := by
  rcases attemptLoop_events db chat_id w n outcomes _ h with h1 | ⟨bf, h2⟩
  · simp at h1
  · injection h2 with hc hb hsp

/-- A call that passes the single-flight guard always issues the sampling
query (so a subsequent attempt is genuinely allowed to proceed). -/
theorem sample_mem_sendWallpaperToChat (st : BotState) (chat_id : Int)
    (sfw : Option Bool) (retry : Nat) (env : SendEnv)
    (h : chat_id ∉ st.runningJobs) :
    SendEvent.sample ∈ (sendWallpaperToChat st chat_id sfw retry env).2.1 := by
  unfold sendWallpaperToChat
  rw [if_neg h]
  rcases hws : sqliteGetRandomWallpapers st.db 1 (5 * 1024 * 1024) 10000 10000 sfw
      env.shuffle1 env.shuffle2 with _ | ⟨w, rest⟩
  · simp [hws]
  · by_cases hraise : env.unexpectedRaise <;> simp [hws, hraise]

/-- After a call that passed the guard, the sending set is the original
set with `chat_id` inserted and then erased, on every completion path
(success, exhausted retries, no candidate, unexpected exception). -/
theorem sendWallpaperToChat_runningJobs (st : BotState) (chat_id : Int)
    (sfw : Option Bool) (retry : Nat) (env : SendEnv)
    (h : chat_id ∉ st.runningJobs) :
    (sendWallpaperToChat st chat_id sfw retry env).2.2.runningJobs
      = (insert chat_id st.runningJobs).erase chat_id := by
  unfold sendWallpaperToChat
  rw [if_neg h]
  rcases hws : sqliteGetRandomWallpapers st.db 1 (5 * 1024 * 1024) 10000 10000 sfw
      env.shuffle1 env.shuffle2 with _ | ⟨w, rest⟩
  · simp [hws]
  · by_cases hraise : env.unexpectedRaise <;> simp [hws, hraise]

/-! ## Concrete test data -/

/-- A concrete wallpaper record with all attribution fields fixed and the
claim-relevant fields supplied by the caller. -/
def mkWallpaper (id src : String) (tags colors : List String)
    (width height size : Int) (sfw : Bool) (file_id : Option String) : Wallpaper :=
  { id := id
    src := src
    source := "wallhaven"
    source_src := "https://wallhaven.cc/w/x"
    description := "a wallpaper"
    author := "someone"
    author_url := "https://example.org/author"
    tags := tags
    colors := colors
    category := "general"
    width := width
    height := height
    ratio := 16 / 9
    size := size
    sfw := sfw
    type := "image/jpeg"
    extra_info := JValue.obj []
    created_at := 0
    file_id := file_id }

/-- An environment oracle whose random orders are the stored order and
whose delivery attempts all succeed without returning photo sizes. -/
def envId : SendEnv :=
  { shuffle1 := id
    shuffle2 := id
    attempts := [AttemptOutcome.ok none, AttemptOutcome.ok none, AttemptOutcome.ok none]
    unexpectedRaise := false }

/-! ## C3 — single-flight guard -/

/-- C3: while a send to `chat_id` is in flight past the guard (i.e.
`chat_id` is in the sending set), a new `_send_wallpaper_to_chat` call
for the same `chat_id` returns `False` immediately: it emits no event (no
sampling query, no delivery-client call, no store write) and leaves the
bot state unchanged.  The guard test and the insertion into the set run
with no suspension point between them, so under asyncio's
single-threaded scheduling at most one call per destination is past the
guard at any instant. -/
theorem send_singleFlight_guard (st : BotState) (chat_id : Int) (sfw : Option Bool)
    (retry : Nat) (env : SendEnv) (h : chat_id ∈ st.runningJobs) :
    sendWallpaperToChat st chat_id sfw retry env = (false, [], st) := by
  unfold sendWallpaperToChat
  rw [if_pos h]

/-- C3 witness: a concrete second attempt to destination 7 while 7 is in
the sending set is skipped. -/
theorem send_singleFlight_guard_witness :
    (7 : Int) ∈ (⟨{7}, []⟩ : BotState).runningJobs ∧
    sendWallpaperToChat ⟨{7}, []⟩ 7 none 3 envId = (false, [], (⟨{7}, []⟩ : BotState)) :=
  ⟨by decide, send_singleFlight_guard ⟨{7}, []⟩ 7 none 3 envId (by decide)⟩

/-! ## C4 — unconditional release -/

/-- C4: a `_send_wallpaper_to_chat` call that passed the single-flight
guard always removes `chat_id` from the sending set on completion —
whether it succeeded, exhausted its retries, found no candidate, or an
unexpected exception was raised in the body (the removal is in a
`finally`) — and a subsequent attempt to the same destination then passes
the guard and issues its sampling query. -/
theorem send_release_unconditional (st : BotState) (chat_id : Int)
    (sfw sfw' : Option Bool) (retry retry' : Nat) (env env' : SendEnv)
    (h : chat_id ∉ st.runningJobs) :
    chat_id ∉ (sendWallpaperToChat st chat_id sfw retry env).2.2.runningJobs ∧
    SendEvent.sample ∈
      (sendWallpaperToChat (sendWallpaperToChat st chat_id sfw retry env).2.2 chat_id
          sfw' retry' env').2.1 := by
  have hnot : chat_id ∉ (sendWallpaperToChat st chat_id sfw retry env).2.2.runningJobs := by
    rw [sendWallpaperToChat_runningJobs st chat_id sfw retry env h]
    exact Finset.not_mem_erase _ _
  exact ⟨hnot, sample_mem_sendWallpaperToChat _ chat_id sfw' retry' env' hnot⟩

/-- C4 witness: destination 7, empty store (the attempt fails with "no
candidate"), all delivery attempts would raise — afterwards 7 is not in
the sending set and a second attempt proceeds to sample. -/
theorem send_release_unconditional_witness :
    (7 : Int) ∉ (sendWallpaperToChat ⟨∅, []⟩ 7 none 3 envId).2.2.runningJobs ∧
    SendEvent.sample ∈
      (sendWallpaperToChat (sendWallpaperToChat ⟨∅, []⟩ 7 none 3 envId).2.2 7 none 3
          envId).2.1 :=
  send_release_unconditional ⟨∅, []⟩ 7 none none 3 3 envId envId (by decide)

/-! ## C9 — sensitive-content marking -/

/-- C9: every `send_photo` call a `_send_wallpaper_to_chat` call makes —
whether by cached `file_id` or by raw `src` URL, on any retry attempt —
passes `has_spoiler = not wallpaper.sfw` for the wallpaper the call
selected. -/
theorem send_spoiler_iff_nsfw (st : BotState) (chat_id : Int) (sfw : Option Bool)
    (retry : Nat) (env : SendEnv) (c : Int) (b sp : Bool)
    (h : SendEvent.clientSend c b sp ∈ (sendWallpaperToChat st chat_id sfw retry env).2.1) :
    ∃ w, selectedWallpaper st sfw env = some w ∧ sp = !w.sfw := by
  unfold sendWallpaperToChat at h
  by_cases hguard : chat_id ∈ st.runningJobs
  · rw [if_pos hguard] at h
    simp at h
  · rw [if_neg hguard] at h
    unfold selectedWallpaper
    rcases hws : sqliteGetRandomWallpapers st.db 1 (5 * 1024 * 1024) 10000 10000 sfw
        env.shuffle1 env.shuffle2 with _ | ⟨w, rest⟩
    · rw [hws] at h
      simp at h
    · rw [hws] at h
      by_cases hraise : env.unexpectedRaise
      · simp [hraise] at h
      · simp only [hraise, Bool.false_eq_true, if_false, List.mem_cons] at h
        rcases h with h | h
        · exact absurd h (by simp)
        · exact ⟨w, rfl, attemptLoop_spoiler st.db chat_id w retry env.attempts h⟩

/-- C9 witness: a concrete NSFW wallpaper without a cached handle is sent
with `has_spoiler = true`. -/
theorem send_spoiler_iff_nsfw_witness :
    ∃ w,
      selectedWallpaper
          ⟨∅, [sqliteWallpaperToRow
            (mkWallpaper "n1" "https://img/n1" [] [] 100 100 10 false none)]⟩ none envId
        = some w ∧ true = !w.sfw :=
  send_spoiler_iff_nsfw
    ⟨∅, [sqliteWallpaperToRow (mkWallpaper "n1" "https://img/n1" [] [] 100 100 10 false none)]⟩
    7 none 3 envId 7 false true
    (List.mem_cons_of_mem _ (List.mem_cons_self _ _))

/-! ## C1 — prefer-undelivered sampling -/

/-- A row matching the first-phase WHERE clause has no delivery
handle. -/
theorem sqliteRowMatches_unpub_file_id {max_size max_width max_height : Int}
    {sfw : Option Bool} {r : SqliteWallpaperRow}
    (h : sqliteRowMatches max_size max_width max_height sfw true r = true) :
    r.file_id = none := by
  unfold sqliteRowMatches at h
  simp only [Bool.and_eq_true, if_true] at h
  exact Option.isNone_iff_eq_none.mp h.1.1.1.1

/-- When the undelivered-first query returns rows, `get_random_wallpapers`
returns exactly them (the fallback query does not run). -/
theorem sqliteGetRandomWallpapers_phase1 (db : List SqliteWallpaperRow)
    (max_count max_size max_width max_height : Int) (sfw : Option Bool)
    (shuffle1 shuffle2 : List SqliteWallpaperRow → List SqliteWallpaperRow)
    (h : sqliteGetRandomPhase db max_count max_size max_width max_height sfw true
      shuffle1 ≠ []) :
    sqliteGetRandomWallpapers db max_count max_size max_width max_height sfw shuffle1
        shuffle2
      = sqliteGetRandomPhase db max_count max_size max_width max_height sfw true
          shuffle1 := by
  simp only [sqliteGetRandomWallpapers]
  rw [if_neg (by simpa [List.isEmpty_iff] using h)]

/-- C1 (amended): the embedded backend implements prefer-undelivered:
whenever at least one stored row matches the filters and has no delivery
handle, and at least one row is requested, the first-phase query returns
a nonempty sample and every returned wallpaper is undelivered
(`file_id = null`); the fallback query runs only when the first phase is
empty.  (The networked backend has no such phase — see the
counterexample.) -/
theorem sqlite_prefer_undelivered (db : List SqliteWallpaperRow)
    (max_count max_size max_width max_height : Int) (sfw : Option Bool)
    (shuffle1 shuffle2 : List SqliteWallpaperRow → List SqliteWallpaperRow)
    (h1 : ∀ l, (shuffle1 l).Perm l) (hmc : 1 ≤ max_count)
    (hex : ∃ r ∈ db,
      sqliteRowMatches max_size max_width max_height sfw true r = true) :
    sqliteGetRandomWallpapers db max_count max_size max_width max_height sfw shuffle1
        shuffle2 ≠ [] ∧
    ∀ w ∈ sqliteGetRandomWallpapers db max_count max_size max_width max_height sfw
        shuffle1 shuffle2, w.file_id = none := by
  rcases hex with ⟨r, hrdb, hrm⟩
  have hsh : r ∈ shuffle1 (db.filter
      (sqliteRowMatches max_size max_width max_height sfw true)) :=
    (h1 _).mem_iff.mpr (List.mem_filter.mpr ⟨hrdb, hrm⟩)
  have hphase : sqliteGetRandomPhase db max_count max_size max_width max_height sfw
      true shuffle1 ≠ [] := by
    unfold sqliteGetRandomPhase sqliteLimit
    rw [if_neg (by omega)]
    intro hcontra
    rw [List.map_eq_nil_iff] at hcontra
    rcases List.take_eq_nil_iff.mp hcontra with h0 | hnil
    · have := Int.toNat_of_nonneg (by omega : (0:Int) ≤ max_count)
      omega
    · rw [hnil] at hsh
      exact List.not_mem_nil r hsh
  have heq := sqliteGetRandomWallpapers_phase1 db max_count max_size max_width
    max_height sfw shuffle1 shuffle2 hphase
  refine ⟨heq ▸ hphase, ?_⟩
  intro w hw
  rw [heq] at hw
  rcases mem_sqliteGetRandomPhase h1 hw with ⟨r', _, hrm', rfl⟩
  exact sqliteRowMatches_unpub_file_id hrm'

/-- C1 witness data: one undelivered and one already-delivered wallpaper
in the embedded store. -/
def c1FreshRow : SqliteWallpaperRow :=
  sqliteWallpaperToRow (mkWallpaper "c1f" "https://img/c1f" [] [] 100 100 10 true none)

def c1DeliveredRow : SqliteWallpaperRow :=
  sqliteWallpaperToRow
    (mkWallpaper "c1d" "https://img/c1d" [] [] 100 100 10 true (some "fid-c1"))

/-- C1 witness: with exactly one undelivered and one delivered wallpaper
stored (delivered first in storage order, identity shuffle), a
`max_count=1` call on the embedded backend returns a nonempty sample
consisting only of undelivered wallpapers. -/
theorem sqlite_prefer_undelivered_witness :
    sqliteGetRandomWallpapers [c1DeliveredRow, c1FreshRow] 1 0 0 0 none id id ≠ [] ∧
    ∀ w ∈ sqliteGetRandomWallpapers [c1DeliveredRow, c1FreshRow] 1 0 0 0 none id id,
      w.file_id = none :=
  sqlite_prefer_undelivered [c1DeliveredRow, c1FreshRow] 1 0 0 0 none id id
    (fun l => List.Perm.refl l) (by decide)
    ⟨c1FreshRow, List.mem_cons_of_mem _ (List.mem_cons_self _ _), rfl⟩

/-- C1 witness data for the networked backend: the same two wallpapers
as native rows, the delivered one first in storage order. -/
def c1PgDeliveredRow : PgWallpaperRow :=
  pgWallpaperToRow
    (mkWallpaper "c1d" "https://img/c1d" [] [] 100 100 10 true (some "fid-c1"))

def c1PgFreshRow : PgWallpaperRow :=
  pgWallpaperToRow (mkWallpaper "c1f" "https://img/c1f" [] [] 100 100 10 true none)

/-- C1 counterexample: the networked backend has no prefer-undelivered
phase.  With one undelivered and one delivered wallpaper stored, both
matching all filters, a `max_count=1` call under a legitimate random
order (here: the stored order, an admissible outcome of
`ORDER BY RANDOM()`) returns the delivered wallpaper, contradicting
"always returns the undelivered one" for this backend. -/
theorem pg_prefer_undelivered_counterexample :
    (∀ l : List PgWallpaperRow, (id l).Perm l) ∧
    c1PgDeliveredRow.file_id = some "fid-c1" ∧
    c1PgFreshRow.file_id = none ∧
    pgGetRandomWallpapers [c1PgDeliveredRow, c1PgFreshRow] 1 0 0 0 none id
      = [pgRowToWallpaper c1PgDeliveredRow] ∧
    (pgRowToWallpaper c1PgDeliveredRow).file_id ≠ none :=
  ⟨fun l => List.Perm.refl l, rfl, rfl, rfl, by decide⟩

/-! ## C2 — upsert semantics -/

/-- Rows kept by a `≠ key` filter all disappear under the matching
`= key` filter. -/
theorem filter_eq_of_filter_ne {α : Type} (key : α → String) (l : List α) (x : String) :
    ((l.filter fun r => key r ≠ x).filter fun r => key r = x) = [] := by
  induction l with
  | nil => rfl
  | cons a t ih =>
    by_cases h : key a = x <;> simp [List.filter_cons, h, ih]

/-- Mapping a function that fixes every element of a list is the
identity. -/
theorem map_id_of_fixed {α : Type} (f : α → α) (l : List α) (h : ∀ a ∈ l, f a = a) :
    l.map f = l := by
  induction l with
  | nil => rfl
  | cons a t ih =>
    rw [List.map_cons, h a (List.mem_cons_self a t),
      ih fun b hb => h b (List.mem_cons_of_mem a hb)]

/-- A list none of whose keys equal `x` filters to nothing under
`= x`. -/
theorem filter_eq_nil_of_ne {α : Type} (key : α → String) (l : List α) (x : String)
    (h : ∀ a ∈ l, key a ≠ x) : (l.filter fun r => key r = x) = [] := by
  induction l with
  | nil => rfl
  | cons a t ih =>
    simp [List.filter_cons, h a (List.mem_cons_self a t),
      ih fun b hb => h b (List.mem_cons_of_mem a hb)]

/-- C2 (amended): inserting the same wallpaper id twice leaves exactly
one row with that id on both backends, and that row carries the second
call's `file_id` on both backends; but the backends differ beyond that:
the embedded backend replaces the whole row with the second call's
fields, while the networked backend keeps the first call's fields for
every column except `file_id` (overwritten with the second call's value)
and `created_at` (refreshed server-side). -/
theorem upsert_semantics (db : List SqliteWallpaperRow) (pdb : List PgWallpaperRow)
    (w1 w2 : Wallpaper) (now1 now2 : Int) (hid : w1.id = w2.id)
    (hfresh : ∀ r ∈ pdb, r.id ≠ w1.id) :
    ((sqliteInsertWallpaper (sqliteInsertWallpaper db w1) w2).filter
        fun r => r.id = w2.id) = [sqliteWallpaperToRow w2] ∧
    ((pgInsertWallpaper (pgInsertWallpaper pdb w1 now1) w2 now2).filter
        fun r => r.id = w2.id)
      = [{ pgWallpaperToRow w1 with file_id := w2.file_id, created_at := now2 }] := by
  constructor
  · unfold sqliteInsertWallpaper
    rw [List.filter_append, List.filter_append, List.filter_append]
    rw [filter_eq_of_filter_ne (fun r : SqliteWallpaperRow => r.id)
      (db.filter fun r => r.id ≠ w1.id) w2.id]
    have hrow1 : (([sqliteWallpaperToRow w1].filter fun r => r.id ≠ w2.id).filter
        fun r => r.id = w2.id) = [] := by
      simp [List.filter_cons, sqliteWallpaperToRow, hid]
    rw [hrow1]
    simp [List.filter_cons, sqliteWallpaperToRow]
  · have hfirst : pgInsertWallpaper pdb w1 now1 = pdb ++ [pgWallpaperToRow w1] := by
      unfold pgInsertWallpaper
      rw [if_neg]
      intro hany
      rcases List.any_eq_true.mp hany with ⟨r, hr, heq⟩
      exact hfresh r hr (of_decide_eq_true heq)
    have hsecond : pgInsertWallpaper (pdb ++ [pgWallpaperToRow w1]) w2 now2
        = (pdb ++ [pgWallpaperToRow w1]).map fun r =>
            if r.id = w2.id then { r with file_id := w2.file_id, created_at := now2 }
            else r := by
      unfold pgInsertWallpaper
      rw [if_pos]
      exact List.any_eq_true.mpr
        ⟨pgWallpaperToRow w1, List.mem_append_right _ (List.mem_cons_self _ _),
          decide_eq_true (show (pgWallpaperToRow w1).id = w2.id from hid)⟩
    rw [hfirst, hsecond, List.map_append, List.filter_append]
    have hmap : (pdb.map fun r =>
        if r.id = w2.id then { r with file_id := w2.file_id, created_at := now2 }
        else r) = pdb := by
      refine map_id_of_fixed _ pdb fun r hr => ?_
      rw [if_neg fun heq => hfresh r hr (heq.trans hid.symm)]
    rw [hmap, filter_eq_nil_of_ne (fun r : PgWallpaperRow => r.id) pdb w2.id
      fun r hr heq => hfresh r hr (heq.trans hid.symm)]
    simp [List.filter_cons, pgWallpaperToRow, hid]

/-- C2 witness data: two wallpapers sharing an id but differing in
`src`, dimensions and `file_id`. -/
def c2w1 : Wallpaper := mkWallpaper "dup" "https://first" [] [] 100 100 10 true none

def c2w2 : Wallpaper :=
  mkWallpaper "dup" "https://second" [] [] 200 200 20 true (some "fid2")

/-- C2 witness: the amended upsert behaviour at a concrete double
insert — one row per backend, each carrying the latest `file_id`. -/
theorem upsert_semantics_witness :
    ((sqliteInsertWallpaper (sqliteInsertWallpaper [] c2w1) c2w2).filter
        fun r => r.id = c2w2.id) = [sqliteWallpaperToRow c2w2] ∧
    ((pgInsertWallpaper (pgInsertWallpaper [] c2w1 1) c2w2 2).filter
        fun r => r.id = c2w2.id)
      = [{ pgWallpaperToRow c2w1 with file_id := c2w2.file_id, created_at := 2 }] :=
  upsert_semantics [] [] c2w1 c2w2 1 2 rfl (by simp)

/-- C2 counterexample: on the networked backend the second insert does
not replace the whole row — after inserting `c2w1` then `c2w2` (same id,
different `src`), the stored row still carries the first call's `src`
while the claim requires the second call's fields; the `file_id` is
nevertheless the second call's. -/
theorem pg_upsert_counterexample :
    ((pgGetWallpaperById (pgInsertWallpaper (pgInsertWallpaper [] c2w1 1) c2w2 2)
        "dup").map fun w => w.src) = some "https://first" ∧
    c2w2.src = "https://second" ∧
    (some "https://first" : Option String) ≠ some "https://second" ∧
    ((pgGetWallpaperById (pgInsertWallpaper (pgInsertWallpaper [] c2w1 1) c2w2 2)
        "dup").map fun w => w.file_id) = some (some "fid2") :=
  ⟨rfl, rfl, by decide, rfl⟩

/-! ## C6 — filter correctness -/

theorem sqliteGetRandomPhase_length_le {db : List SqliteWallpaperRow}
    {max_count max_size max_width max_height : Int} {sfw : Option Bool} {u : Bool}
    {sh : List SqliteWallpaperRow → List SqliteWallpaperRow} (hmc : 0 ≤ max_count) :
    ((sqliteGetRandomPhase db max_count max_size max_width max_height sfw u
      sh).length : Int) ≤ max_count := by
  unfold sqliteGetRandomPhase
  rw [List.length_map]
  exact length_sqliteLimit_le hmc _

/-- C6 (amended): on both backends every sampled wallpaper satisfies each
ceiling that was requested with a positive bound (`size`, `width`,
`height`) and matches the requested `sfw` flag when one was given; a
bound of 0 imposes no ceiling (with all bounds 0 and no `sfw` filter,
every stored row matches the WHERE clause); and the result has at most
`max_count` elements whenever `max_count ≥ 0` (a negative `max_count` is
unlimited on the embedded backend and an error — hence `[]` — on the
networked backend, so the length bound cannot hold as an integer
inequality there). -/
theorem sample_filter_correct (db : List SqliteWallpaperRow)
    (pdb : List PgWallpaperRow) (max_count max_size max_width max_height : Int)
    (sfw : Option Bool) (sh1 sh2 : List SqliteWallpaperRow → List SqliteWallpaperRow)
    (psh : List PgWallpaperRow → List PgWallpaperRow)
    (h1 : ∀ l, (sh1 l).Perm l) (h2 : ∀ l, (sh2 l).Perm l)
    (hp : ∀ l, (psh l).Perm l) :
    (∀ w ∈ sqliteGetRandomWallpapers db max_count max_size max_width max_height sfw
        sh1 sh2,
      (0 < max_size → w.size ≤ max_size) ∧ (0 < max_width → w.width ≤ max_width) ∧
      (0 < max_height → w.height ≤ max_height) ∧ ∀ b, sfw = some b → w.sfw = b) ∧
    (∀ w ∈ pgGetRandomWallpapers pdb max_count max_size max_width max_height sfw psh,
      (0 < max_size → w.size ≤ max_size) ∧ (0 < max_width → w.width ≤ max_width) ∧
      (0 < max_height → w.height ≤ max_height) ∧ ∀ b, sfw = some b → w.sfw = b) ∧
    (0 ≤ max_count →
      ((sqliteGetRandomWallpapers db max_count max_size max_width max_height sfw sh1
          sh2).length : Int) ≤ max_count ∧
      ((pgGetRandomWallpapers pdb max_count max_size max_width max_height sfw
          psh).length : Int) ≤ max_count) ∧
    (∀ r ∈ db, sqliteRowMatches 0 0 0 none false r = true) ∧
    (∀ r ∈ pdb, pgRowMatches 0 0 0 none r = true) := by
  refine ⟨?_, ?_, ?_, ?_, ?_⟩
  · intro w hw
    rcases mem_sqliteGetRandomWallpapers h1 h2 hw with ⟨r, _, hrm, rfl⟩
    exact sqliteRowMatches_bounds hrm
  · intro w hw
    rcases mem_pgGetRandomWallpapers hp hw with ⟨r, _, hrm, rfl⟩
    exact pgRowMatches_bounds hrm
  · intro hmc
    constructor
    · simp only [sqliteGetRandomWallpapers]
      split
      · exact sqliteGetRandomPhase_length_le hmc
      · exact sqliteGetRandomPhase_length_le hmc
    · unfold pgGetRandomWallpapers
      rw [if_neg (by omega)]
      rw [List.length_map]
      calc ((List.take max_count.toNat _).length : Int)
          ≤ (max_count.toNat : Int) := by exact_mod_cast List.length_take_le _ _
        _ = max_count := Int.toNat_of_nonneg hmc
  · intro r _
    simp [sqliteRowMatches]
  · intro r _
    simp [pgRowMatches]

/-- C6 witness: the filter guarantees at a concrete store and bounds
(one matching row, `max_count = 1`). -/
theorem sample_filter_correct_witness :
    (∀ w ∈ sqliteGetRandomWallpapers [c1FreshRow] 1 50 200 200 (some true) id id,
      (0 < (50:Int) → w.size ≤ 50) ∧ (0 < (200:Int) → w.width ≤ 200) ∧
      (0 < (200:Int) → w.height ≤ 200) ∧
      ∀ b, (some true : Option Bool) = some b → w.sfw = b) ∧
    (∀ w ∈ pgGetRandomWallpapers [c1PgFreshRow] 1 50 200 200 (some true) id,
      (0 < (50:Int) → w.size ≤ 50) ∧ (0 < (200:Int) → w.width ≤ 200) ∧
      (0 < (200:Int) → w.height ≤ 200) ∧
      ∀ b, (some true : Option Bool) = some b → w.sfw = b) ∧
    ((0:Int) ≤ 1 →
      ((sqliteGetRandomWallpapers [c1FreshRow] 1 50 200 200 (some true) id
          id).length : Int) ≤ 1 ∧
      ((pgGetRandomWallpapers [c1PgFreshRow] 1 50 200 200 (some true) id).length :
          Int) ≤ 1) ∧
    (∀ r ∈ [c1FreshRow], sqliteRowMatches 0 0 0 none false r = true) ∧
    (∀ r ∈ [c1PgFreshRow], pgRowMatches 0 0 0 none r = true) :=
  sample_filter_correct [c1FreshRow] [c1PgFreshRow] 1 50 200 200 (some true) id id id
    (fun l => List.Perm.refl l) (fun l => List.Perm.refl l) (fun l => List.Perm.refl l)

/-- C6 counterexample data: a single stored wallpaper with no delivery
handle. -/
def c6Row : SqliteWallpaperRow :=
  sqliteWallpaperToRow (mkWallpaper "c6" "https://img/c6" [] [] 100 100 10 true none)

/-- C6 counterexample: with a negative `max_count` the embedded backend's
`LIMIT` imposes no bound, so "the result has at most `max_count`
elements" fails — the call returns the stored wallpaper. -/
theorem sample_limit_counterexample :
    (∀ l : List SqliteWallpaperRow, (id l).Perm l) ∧
    sqliteGetRandomWallpapers [c6Row] (-1) 0 0 0 none id id
      = [sqliteRowToWallpaper c6Row] ∧
    ¬ (((sqliteGetRandomWallpapers [c6Row] (-1) 0 0 0 none id id).length : Int)
        ≤ -1) :=
  ⟨fun l => List.Perm.refl l, rfl, by decide⟩

/-! ## C8 — sampling edge cases -/

theorem sqliteLimit_nil {α : Type} (max_count : Int) :
    sqliteLimit max_count ([] : List α) = [] := by
  unfold sqliteLimit
  split <;> simp

/-- C8 (amended): on both backends `max_count = 0` yields the empty list,
and when no stored row matches the filters the result is the empty list
rather than an error; a negative `max_count` yields the empty list on the
networked backend (the query errors and the error is converted to `[]`)
but is an unlimited sample on the embedded backend. -/
theorem sample_edge_cases (db : List SqliteWallpaperRow) (pdb : List PgWallpaperRow)
    (max_size max_width max_height : Int) (sfw : Option Bool)
    (sh1 sh2 : List SqliteWallpaperRow → List SqliteWallpaperRow)
    (psh : List PgWallpaperRow → List PgWallpaperRow)
    (h1 : ∀ l, (sh1 l).Perm l) (h2 : ∀ l, (sh2 l).Perm l)
    (hp : ∀ l, (psh l).Perm l) :
    sqliteGetRandomWallpapers db 0 max_size max_width max_height sfw sh1 sh2 = [] ∧
    pgGetRandomWallpapers pdb 0 max_size max_width max_height sfw psh = [] ∧
    (∀ max_count : Int,
      (∀ r ∈ db, sqliteRowMatches max_size max_width max_height sfw false r = false) →
      sqliteGetRandomWallpapers db max_count max_size max_width max_height sfw sh1
        sh2 = []) ∧
    (∀ max_count : Int,
      (∀ r ∈ pdb, pgRowMatches max_size max_width max_height sfw r = false) →
      pgGetRandomWallpapers pdb max_count max_size max_width max_height sfw psh
        = []) ∧
    (∀ max_count : Int, max_count < 0 →
      pgGetRandomWallpapers pdb max_count max_size max_width max_height sfw psh
        = []) := by
  have hphase0 : ∀ (u : Bool) (sh : List SqliteWallpaperRow → List SqliteWallpaperRow),
      sqliteGetRandomPhase db 0 max_size max_width max_height sfw u sh = [] := by
    intro u sh
    unfold sqliteGetRandomPhase sqliteLimit
    rw [if_neg (by omega)]
    simp
  refine ⟨?_, ?_, ?_, ?_, ?_⟩
  · simp only [sqliteGetRandomWallpapers]
    rw [hphase0, hphase0]
    simp
  · unfold pgGetRandomWallpapers
    rw [if_neg (by omega)]
    simp
  · intro max_count hnone
    have hfilter : ∀ u : Bool,
        db.filter (sqliteRowMatches max_size max_width max_height sfw u) = [] := by
      intro u
      refine List.filter_eq_nil_iff.mpr fun r hr => ?_
      cases u
      · simp [hnone r hr]
      · intro hcontra
        have := sqliteRowMatches_weaken hcontra
        rw [hnone r hr] at this
        cases this
    have hphase : ∀ (u : Bool)
        (sh : List SqliteWallpaperRow → List SqliteWallpaperRow),
        (∀ l, (sh l).Perm l) →
        sqliteGetRandomPhase db max_count max_size max_width max_height sfw u sh
          = [] := by
      intro u sh hsh
      unfold sqliteGetRandomPhase
      rw [hfilter u, (hsh []).eq_nil, sqliteLimit_nil]
      rfl
    simp only [sqliteGetRandomWallpapers]
    rw [hphase true sh1 h1, hphase false sh2 h2]
    simp
  · intro max_count hnone
    unfold pgGetRandomWallpapers
    split
    · rfl
    · rw [List.filter_eq_nil_iff.mpr fun r hr => by simp [hnone r hr], (hp []).eq_nil]
      simp
  · intro max_count hneg
    unfold pgGetRandomWallpapers
    rw [if_pos hneg]

/-- C8 witness: the amended edge cases at a concrete store (one stored
row, bounds that nothing matches). -/
theorem sample_edge_cases_witness :
    sqliteGetRandomWallpapers [c6Row] 0 0 0 5 none id id = [] ∧
    pgGetRandomWallpapers [c1PgFreshRow] 0 0 0 5 none id = [] ∧
    (∀ max_count : Int,
      (∀ r ∈ [c6Row], sqliteRowMatches 0 0 5 none false r = false) →
      sqliteGetRandomWallpapers [c6Row] max_count 0 0 5 none id id = []) ∧
    (∀ max_count : Int,
      (∀ r ∈ [c1PgFreshRow], pgRowMatches 0 0 5 none r = false) →
      pgGetRandomWallpapers [c1PgFreshRow] max_count 0 0 5 none id = []) ∧
    (∀ max_count : Int, max_count < 0 →
      pgGetRandomWallpapers [c1PgFreshRow] max_count 0 0 5 none id = []) :=
  sample_edge_cases [c6Row] [c1PgFreshRow] 0 0 5 none id id id
    (fun l => List.Perm.refl l) (fun l => List.Perm.refl l) (fun l => List.Perm.refl l)

/-- C8 counterexample data: another copy of a single stored undelivered
wallpaper. -/
def c8Row : SqliteWallpaperRow :=
  sqliteWallpaperToRow (mkWallpaper "c8" "https://img/c8" [] [] 100 100 10 true none)

/-- C8 counterexample: `max_count = -1` satisfies `max_count ≤ 0` but the
embedded backend returns the stored wallpaper, not the empty list
(SQLite's negative `LIMIT` means "no bound"). -/
theorem sample_negative_count_counterexample :
    (∀ l : List SqliteWallpaperRow, (id l).Perm l) ∧ (-1 : Int) ≤ 0 ∧
    sqliteGetRandomWallpapers [c8Row] (-1) 0 0 0 none id id
      = [sqliteRowToWallpaper c8Row] ∧
    [sqliteRowToWallpaper c8Row] ≠ ([] : List Wallpaper) :=
  ⟨fun l => List.Perm.refl l, by decide, rfl, fun h => List.noConfusion h⟩

/-! ## C7 — round-trip of collection fields -/

/-- `find?` skips a prefix on which the predicate fails everywhere. -/
theorem find?_append_of_none {α : Type} (p : α → Bool) (l1 l2 : List α)
    (h : ∀ a ∈ l1, p a = false) : (l1 ++ l2).find? p = l2.find? p := by
  induction l1 with
  | nil => rfl
  | cons a t ih =>
    simp only [List.cons_append, List.find?, h a (List.mem_cons_self a t)]
    exact ih fun b hb => h b (List.mem_cons_of_mem a hb)

theorem if_isEmpty_eq {α : Type} (l : List α) : (if l.isEmpty then [] else l) = l := by
  cases l <;> simp

/-- C7 (amended): insert-then-lookup round-trips `tags`, `colors` and
`extra_info` on the networked backend for every wallpaper (with a fresh
id), and on the embedded backend provided no tag or color contains the
comma delimiter and neither list is the singleton empty string — outside
those conditions the embedded backend's comma-joined text cells decode to
a different list (see the counterexample). -/
theorem roundtrip_collections (db : List SqliteWallpaperRow)
    (pdb : List PgWallpaperRow) (w : Wallpaper) (now : Int)
    (htags : ∀ s ∈ w.tags, ',' ∉ s.data) (hcolors : ∀ s ∈ w.colors, ',' ∉ s.data)
    (htne : w.tags ≠ [""]) (hcne : w.colors ≠ [""])
    (hfresh : ∀ r ∈ pdb, r.id ≠ w.id) :
    (∃ w', sqliteGetWallpaperById (sqliteInsertWallpaper db w) w.id = some w' ∧
      w'.tags = w.tags ∧ w'.colors = w.colors ∧ w'.extra_info = w.extra_info) ∧
    (∃ w', pgGetWallpaperById (pgInsertWallpaper pdb w now) w.id = some w' ∧
      w'.tags = w.tags ∧ w'.colors = w.colors ∧ w'.extra_info = w.extra_info) := by
  constructor
  · refine ⟨sqliteRowToWallpaper (sqliteWallpaperToRow w), ?_, ?_, ?_, rfl⟩
    · unfold sqliteGetWallpaperById sqliteInsertWallpaper
      rw [find?_append_of_none _ _ _ ?_]
      · simp [List.find?, sqliteWallpaperToRow]
      · intro a ha
        have hne := (List.mem_filter.mp ha).2
        simp only [decide_eq_true_eq] at hne
        exact decide_eq_false hne
    · exact decodeListCell_encodeListCell w.tags htags htne
    · exact decodeListCell_encodeListCell w.colors hcolors hcne
  · refine ⟨pgRowToWallpaper (pgWallpaperToRow w), ?_, ?_, ?_, rfl⟩
    · unfold pgGetWallpaperById pgInsertWallpaper
      rw [if_neg ?_]
      · rw [find?_append_of_none _ _ _ ?_]
        · simp [List.find?, pgWallpaperToRow]
        · intro a ha
          exact decide_eq_false (hfresh a ha)
      · intro hany
        rcases List.any_eq_true.mp hany with ⟨r, hr, heq⟩
        exact hfresh r hr (of_decide_eq_true heq)
    · exact if_isEmpty_eq w.tags
    · exact if_isEmpty_eq w.colors

/-- C7 witness data: comma-free tags, empty colors. -/
def c7wGood : Wallpaper :=
  mkWallpaper "c7g" "https://img/c7g" ["anime", "city"] [] 100 100 10 true none

/-- C7 witness: the amended round-trip at a concrete wallpaper on both
backends. -/
theorem roundtrip_collections_witness :
    (∃ w', sqliteGetWallpaperById (sqliteInsertWallpaper [] c7wGood) c7wGood.id
        = some w' ∧
      w'.tags = c7wGood.tags ∧ w'.colors = c7wGood.colors ∧
      w'.extra_info = c7wGood.extra_info) ∧
    (∃ w', pgGetWallpaperById (pgInsertWallpaper [] c7wGood 3) c7wGood.id = some w' ∧
      w'.tags = c7wGood.tags ∧ w'.colors = c7wGood.colors ∧
      w'.extra_info = c7wGood.extra_info) :=
  roundtrip_collections [] [] c7wGood 3 (by decide) (by decide) (by decide)
    (by decide) (by simp)

/-- C7 counterexample data: a single tag containing the comma
delimiter. -/
def c7wComma : Wallpaper :=
  mkWallpaper "c7" "https://img/c7" ["a,b"] [] 100 100 10 true none

/-- C7 counterexample: on the embedded backend a tag containing a comma
does not round-trip — the caller stored `["a,b"]` and reads back
`["a", "b"]`. -/
theorem roundtrip_comma_counterexample :
    ((sqliteGetWallpaperById (sqliteInsertWallpaper [] c7wComma) "c7").map
        fun w => w.tags) = some ["a", "b"] ∧
    c7wComma.tags = ["a,b"] ∧
    (some [("a" : String), "b"] : Option (List String)) ≠ some ["a,b"] :=
  ⟨rfl, rfl, by decide⟩

/-! ## C5 — the store's exception boundary -/

/-- C5 counterexample data: a structurally unremarkable wallpaper (in
Python, an `extra_info` holding a non-JSON-serializable value — e.g. a
`datetime` — makes `json.dumps` raise `TypeError`). -/
def c5w : Wallpaper := mkWallpaper "c5" "https://img/c5" [] [] 100 100 10 true none

/-- C5 counterexample: when field serialization fails during
`SqliteRepository.insert_wallpaper`, the exception propagates to the
caller (`except sqlite3.Error` does not catch the `TypeError` raised by
`json.dumps`), contradicting "no exception propagates". -/
theorem store_exception_counterexample :
    sqliteInsertWallpaperRun [] c5w (some StorageFailure.serialize)
      = Except.error () := rfl

/-- C5 (amended): driver errors are converted to `False`/`[]` on both
backends, and the networked backend's `except Exception` converts every
failure kind, serialization included; but on the embedded backend a
serialization error in `insert_wallpaper` propagates (see the
counterexample) because only `sqlite3.Error` is caught. -/
theorem store_error_boundary (db : List SqliteWallpaperRow)
    (pdb : List PgWallpaperRow) (w : Wallpaper)
    (now max_count max_size max_width max_height : Int) (sfw : Option Bool)
    (u : Bool) (sh : List SqliteWallpaperRow → List SqliteWallpaperRow) :
    sqliteInsertWallpaperRun db w (some StorageFailure.driver)
      = Except.ok (db, false) ∧
    (∀ f : Option StorageFailure,
      ∃ res, pgInsertWallpaperRun pdb w now f = Except.ok res) ∧
    pgInsertWallpaperRun pdb w now (some StorageFailure.serialize)
      = Except.ok (pdb, false) ∧
    sqliteGetRandomPhaseRun db max_count max_size max_width max_height sfw u sh true
      = [] := by
  refine ⟨rfl, ?_, rfl, rfl⟩
  intro f
  rcases f with _ | f
  · exact ⟨_, rfl⟩
  · rcases f with _ | _ <;> exact ⟨_, rfl⟩

/-! ## C10 — partial update of subscriptions -/

/-- C10: a nonempty partial update of a `chat_id` with no subscription
row affects zero rows and returns `False` — hence deactivating a chat
that never subscribed returns `False` — while a partial update of an
existing row returns `True` (both backends share this logic; the model
is the error-free execution path). -/
theorem update_subscription_rowcount (db1 db2 : List SubscriptionRow)
    (chat_id now : Int) (updates : List SubFieldUpdate)
    (hmiss : ∀ r ∈ db1, r.chat_id ≠ chat_id) (hne : updates ≠ [])
    (hhit : ∃ r ∈ db2, r.chat_id = chat_id) :
    (updateSubscription db1 chat_id updates).2 = false ∧
    (deactivateSubscription db1 chat_id now).2 = false ∧
    (updateSubscription db2 chat_id updates).2 = true := by
  have hanyfalse : (db1.any fun r => r.chat_id = chat_id) = false := by
    rw [List.any_eq_false]
    intro r hr
    simp [hmiss r hr]
  have hanytrue : (db2.any fun r => r.chat_id = chat_id) = true := by
    rcases hhit with ⟨r, hr, heq⟩
    exact List.any_eq_true.mpr ⟨r, hr, decide_eq_true heq⟩
  refine ⟨?_, ?_, ?_⟩
  · unfold updateSubscription
    rw [if_neg (by simpa [List.isEmpty_iff] using hne)]
    exact hanyfalse
  · unfold deactivateSubscription updateSubscription
    rw [if_neg (by simp)]
    exact hanyfalse
  · unfold updateSubscription
    split
    · rfl
    · exact hanytrue

/-- C10 witness data: one subscription row for chat 42. -/
def c10Row : SubscriptionRow :=
  { chat_id := 42
    chat_type := "private"
    title := "someone"
    username := none
    is_admin := false
    created_at := 0
    updated_at := 0
    active := true
    extra_info := JValue.obj [] }

/-- C10 witness: updating or deactivating chat 42 in an empty store
returns `False`; updating it when its row exists returns `True`. -/
theorem update_subscription_rowcount_witness :
    (updateSubscription [] 42 [SubFieldUpdate.setActive true]).2 = false ∧
    (deactivateSubscription [] 42 9).2 = false ∧
    (updateSubscription [c10Row] 42 [SubFieldUpdate.setActive true]).2 = true :=
  update_subscription_rowcount [] [c10Row] 42 9 [SubFieldUpdate.setActive true]
    (by simp) (by simp) ⟨c10Row, List.mem_cons_self _ _, rfl⟩

end IWallpapers
